import Mathlib

/-!
Shallow embedding of `src/tools/acme_account_rollover.py` (acme-dns-tiny
account-key rollover script).  Python values that the script manipulates as
parsed JSON are modelled by the inductive `Json`; Python dicts by ordered
association lists (`PyDict`); the external collaborators (the `requests`
HTTP library, the `openssl` subprocess used as crypto provider, and
`json.dumps`) are modelled as an explicit environment record `Env`.
Exceptions are modelled by `Except PyError`.
-/

/-- JSON values as manipulated by the script (objects are ordered field
lists, matching Python dict insertion order).  Numbers and arrays are not
needed by any value the script constructs or inspects and are omitted. -/
inductive Json where
  | null
  | bool (b : Bool)
  | str (s : String)
  | obj (fields : List (String × Json))

/-- Decidable equality for `Json`, mirroring Python `==` on parsed JSON. -/
def Json.decEq : (a b : Json) → Decidable (a = b)
  | .null, .null => .isTrue rfl
  | .null, .bool _ => .isFalse (fun h => nomatch h)
  | .null, .str _ => .isFalse (fun h => nomatch h)
  | .null, .obj _ => .isFalse (fun h => nomatch h)
  | .bool _, .null => .isFalse (fun h => nomatch h)
  | .bool a, .bool b =>
      if h : a = b then .isTrue (by rw [h]) else .isFalse (fun hh => h (Json.bool.inj hh))
  | .bool _, .str _ => .isFalse (fun h => nomatch h)
  | .bool _, .obj _ => .isFalse (fun h => nomatch h)
  | .str _, .null => .isFalse (fun h => nomatch h)
  | .str _, .bool _ => .isFalse (fun h => nomatch h)
  | .str a, .str b =>
      if h : a = b then .isTrue (by rw [h]) else .isFalse (fun hh => h (Json.str.inj hh))
  | .str _, .obj _ => .isFalse (fun h => nomatch h)
  | .obj _, .null => .isFalse (fun h => nomatch h)
  | .obj _, .bool _ => .isFalse (fun h => nomatch h)
  | .obj _, .str _ => .isFalse (fun h => nomatch h)
  | .obj [], .obj [] => .isTrue rfl
  | .obj [], .obj (_ :: _) => .isFalse (fun h => nomatch Json.obj.inj h)
  | .obj (_ :: _), .obj [] => .isFalse (fun h => nomatch Json.obj.inj h)
  | .obj ((k1, v1) :: r1), .obj ((k2, v2) :: r2) =>
      if hk : k1 = k2 then
        match Json.decEq v1 v2 with
        | .isTrue hv =>
          match Json.decEq (.obj r1) (.obj r2) with
          | .isTrue hr => .isTrue (by
              cases hk; cases hv; cases Json.obj.inj hr; rfl)
          | .isFalse hr => .isFalse (fun h => by
              cases Json.obj.inj h; exact hr rfl)
        | .isFalse hv => .isFalse (fun h => by
            cases Json.obj.inj h; exact hv rfl)
      else .isFalse (fun h => by cases Json.obj.inj h; exact hk rfl)

instance : DecidableEq Json := Json.decEq

deriving instance DecidableEq for Except

/-- Python dicts with string keys, as ordered association lists (Python
dicts preserve insertion order). -/
abbrev PyDict := List (String × Json)

/-- Lookup `d[k]` returning `none` when the key is absent. -/
def PyDict.get (d : PyDict) (k : String) : Option Json :=
  (d.find? (fun p => p.1 = k)).map (fun p => p.2)

/-- Python `k in d`. -/
def PyDict.contains (d : PyDict) (k : String) : Bool :=
  d.any (fun p => p.1 = k)

/-- Removal of a key (the list-level operation underlying `del d[k]`). -/
def PyDict.del (d : PyDict) (k : String) : PyDict :=
  d.filter (fun p => p.1 ≠ k)

/-- Python `d[k] = v`: update in place when the key exists, else append
(insertion order). -/
def PyDict.set (d : PyDict) (k : String) (v : Json) : PyDict :=
  if d.contains k then d.map (fun p => if p.1 = k then (k, v) else p)
  else d ++ [(k, v)]

/-- Errors the script can raise, one constructor per raise site (Python
distinguishes them by exception type and message). -/
inductive PyError where
  /-- `KeyError` from a failing dict or response-header lookup. -/
  | keyError (key : String)
  /-- `ValueError` raised at line 44: "Unable to retrieve private signature." -/
  | privateSignatureError
  /-- `ValueError` from `.json()` when the directory response is not JSON
  (line 118). -/
  | jsonDecodeError
  /-- `RuntimeError("Unknown keypath to sign request")`, line 69. -/
  | runtimeUnknownKey
  /-- `RuntimeError("Unable to get response from ACME server.")`, line 111. -/
  | runtimeNoResponse
  /-- `ValueError("Error looking or account URL: {status} {body}")`, line 133. -/
  | lookupStatusError (status : Nat) (body : Json)
  /-- `ValueError("Error rolling over account key: {status} {body}")`, line 149. -/
  | rolloverStatusError (status : Nat) (body : Json)
  /-- Failure of a directory lookup when the directory is not a JSON object
  or the entry is not a JSON string (the model keeps endpoint URLs as
  strings; Python would propagate the raw value or raise `TypeError`). -/
  | typeMismatch (key : String)
deriving DecidableEq

/-- An HTTP response as the script consumes it: status code, headers
(exact-name lookup), and the result of parsing the body as JSON (`none`
when the body is empty or not valid JSON, i.e. when `response.json()`
would raise `ValueError`). -/
structure HttpResponse where
  status : Nat
  headers : List (String × String)
  body : Option Json
deriving DecidableEq

/-- Field lookup on a JSON object (used only to state properties of the
returned JWS messages). -/
def Json.objGet : Json → String → Option Json
  | .obj d, k => PyDict.get d k
  | _, _ => none

/-- Header lookup `response.headers[k]` result (`none` = `KeyError`). -/
def headerGet (hs : List (String × String)) (k : String) : Option String :=
  (hs.find? (fun p => p.1 = k)).map (fun p => p.2)

/-- One network request performed by the run (used to state which calls a
run performs and in which order). -/
inductive NetCall where
  | get (url : String)
  | post (url : String)
deriving DecidableEq

/-- Record of one call to `_sign_request`, kept by the model so that
properties of every finalized protected header can be stated:
the target url, the signing key path, the payload, the `is_inner` flag and
the finalized protected-header dict (the dict that line 85 serializes). -/
structure SignCall where
  url : String
  keypath : String
  payload : Json
  isInner : Bool
  header : PyDict
deriving DecidableEq

/-- The external collaborators of the script, as one environment:
`dumps` models `json.dumps` (default options; its output is ASCII since
`ensure_ascii` defaults to true), `signBytes` models the
`openssl dgst -sha256 -sign <keypath>` signature bytes for a given signed
text, `keyParams` models reading the RSA key at a path with
`openssl rsa -noout -text` plus the regex/unhexlify extraction of
lines 40-47 — it yields the (modulus bytes, exponent bytes) pair, or
`none` when the regex fails (line 43-44) — and `httpGet`/`httpPost` model
`requests.get`/`requests.post` (request headers and the timeout are
absorbed into the environment; a `post` result of `none` models a
`requests.exceptions.RequestException` whose `error.response` is `None`). -/
structure Env where
  dumps : Json → String
  signBytes : String → String → List Nat
  keyParams : String → Option (List Nat × List Nat)
  httpGet : String → HttpResponse
  httpPost : String → Json → Option HttpResponse

/-- Entry `i % 64` of the base64url alphabet
`A-Z a-z 0-9 - _` (the table index is always below 64 in
`base64.urlsafe_b64encode`; reducing modulo 64 makes the lookup total). -/
def b64CharAux (i : Nat) : Char :=
  if i < 26 then Char.ofNat (65 + i)
  else if i < 52 then Char.ofNat (97 + (i - 26))
  else if i < 62 then Char.ofNat (48 + (i - 52))
  else if i = 62 then Char.ofNat 45
  else Char.ofNat 95

/-- Base64url alphabet lookup. -/
def b64Char (v : Nat) : Char := b64CharAux (v % 64)

/-- Byte-level base64url encoding as performed by
`base64.urlsafe_b64encode(text).rstrip("=")`: bytes are taken three at a
time into four alphabet characters; a trailing group of one byte yields
two characters and of two bytes three characters (the `=` padding that
`urlsafe_b64encode` would append is exactly what `rstrip("=")` removes,
so the fused definition emits none). -/
def b64encode : List Nat → List Char
  | [] => []
  | [a] => [b64Char (a / 4), b64Char (a % 4 * 16)]
  | [a, b] => [b64Char (a / 4), b64Char (a % 4 * 16 + b / 16), b64Char (b % 16 * 4)]
  | a :: b :: c :: rest =>
      b64Char (a / 4) :: b64Char (a % 4 * 16 + b / 16) ::
      b64Char (b % 16 * 4 + c / 64) :: b64Char (c % 64) :: b64encode rest

/-- The script's `_b64` on raw bytes: encode and decode as UTF-8 text
(the encoded characters are ASCII, so decoding is just `String.mk`). -/
def b64 (bytes : List Nat) : String := String.mk (b64encode bytes)

/-- Bytes of a string under `str.encode("utf8")`.  Every string `_b64` is
applied to is `json.dumps` output with its default `ensure_ascii=True`,
hence pure ASCII, where the UTF-8 bytes are the code points. -/
def strBytes (s : String) : List Nat := s.data.map (fun c => c.toNat)

/-- The script's `_b64(text.encode("utf8"))` for a string input. -/
def b64s (s : String) : String := b64 (strBytes s)

/-- Value of a base64url alphabet character (inverse reading of the
encoding table; characters outside the alphabet other than `-` map to 63,
which the round-trip theorem never exercises). -/
def charVal (c : Char) : Nat :=
  if 65 ≤ c.toNat ∧ c.toNat ≤ 90 then c.toNat - 65
  else if 97 ≤ c.toNat ∧ c.toNat ≤ 122 then c.toNat - 97 + 26
  else if 48 ≤ c.toNat ∧ c.toNat ≤ 57 then c.toNat - 48 + 52
  else if c = Char.ofNat 45 then 62
  else 63

/-- Base64url decoding of unpadded text: the mathematical inverse of
`b64encode`, reading four characters into three bytes, a trailing pair
into one byte and a trailing triple into two bytes (this is what
`base64.urlsafe_b64decode` computes once padding is restored); a trailing
single character is not a valid encoding and is dropped. -/
def b64decode : List Char → List Nat
  | [] => []
  | [_] => []
  | [x, y] => [charVal x * 4 + charVal y / 16]
  | [x, y, z] => [charVal x * 4 + charVal y / 16, charVal y % 16 * 16 + charVal z / 4]
  | x :: y :: z :: w :: rest =>
      (charVal x * 4 + charVal y / 16) :: (charVal y % 16 * 16 + charVal z / 4) ::
      (charVal z % 4 * 64 + charVal w) :: b64decode rest

/-- Lookup `acme_config[k]` of an endpoint URL: `KeyError` when the key is
absent; endpoint URLs are modelled as strings, so a non-string entry (or a
non-object directory) is a model-level type mismatch. -/
def cfgGet (cfg : Json) (k : String) : Except PyError String :=
  match cfg with
  | .obj d =>
    match PyDict.get d k with
    | some (.str s) => .ok s
    | some _ => .error (.typeMismatch k)
    | none => .error (.keyError k)
  | _ => .error (.typeMismatch k)

/-- Lines 37-55, `_get_private_acme_signature`: derive the signing-identity
template from the account key.  The `openssl rsa -noout -text` call, the
regex of lines 40-42 and the hex manipulation of lines 45-47 are absorbed
into `env.keyParams`, which returns the extracted (modulus bytes, exponent
bytes) or `none` when the regex search fails (lines 43-44). -/
def get_private_acme_signature (env : Env) (accountkeypath : String) :
    Except PyError PyDict :=
  match env.keyParams accountkeypath with
  | none => .error .privateSignatureError
  | some (modBytes, expBytes) =>
      .ok [("alg", Json.str "RS256"),
           ("jwk", Json.obj [("e", Json.str (b64 expBytes)),
                             ("kty", Json.str "RSA"),
                             ("n", Json.str (b64 modBytes))])]

/-- Python truthiness of the `nonce` variable as used in `nonce or ...`
(line 78): `None` and the empty string are falsy. -/
def nonceTruthy : Option String → Option String
  | some n => if n = "" then none else some n
  | none => none

/-- Lines 78-83: the fresh-nonce fetch
`requests.get(acme_config["newNonce"], ...).headers['Replay-Nonce']`,
performed when the current nonce is falsy.  A missing `Replay-Nonce`
header is a `KeyError`. -/
def freshNonce (env : Env) (cfg : Json) : Except PyError String × List NetCall :=
  match cfgGet cfg "newNonce" with
  | .error e => (.error e, [])
  | .ok nnUrl =>
    match headerGet (env.httpGet nnUrl).headers "Replay-Nonce" with
    | none => (.error (.keyError "Replay-Nonce"), [.get nnUrl])
    | some n => (.ok n, [.get nnUrl])

/-- Lines 84-90 of `_sign_request`: set `url` on the protected header,
base64url-encode the serialized header, sign `"{protected64}.{payload64}"`
with the key at `keypath` and assemble the three-field JWS.  Returns the
JWS together with the finalized protected-header dict it serializes. -/
def finishSign (env : Env) (url keypath payload64 : String) (prot : PyDict) :
    Json × PyDict :=
  let prot := prot.set "url" (Json.str url)
  let protected64 := b64s (env.dumps (Json.obj prot))
  let signature := env.signBytes keypath (protected64 ++ "." ++ payload64)
  (Json.obj [("protected", Json.str protected64), ("payload", Json.str payload64),
             ("signature", Json.str (b64 signature))], prot)

/-- The `payload == ""` test of line 60: Python value equality of the
payload with the empty string (true exactly for the empty-string
sentinel). -/
def isEmptyStr : Json → Bool
  | .str "" => true
  | _ => false

/-- Lines 71-90 of `_sign_request`, starting from the deep copy
`protected0` of the selected template: header-field stripping, nonce
attachment and assembly. -/
def sign_request_body (env : Env) (cfg : Json) (nonce : Option String)
    (url keypath payload64 : String) (protected0 : PyDict) (is_inner : Bool) :
    Except PyError (Json × PyDict) × List NetCall :=
  -- line 71, keeping Python's short-circuit: `acme_config["newAccount"]`
  -- is only evaluated when `is_inner` is false
  match (if is_inner then .ok true
         else (cfgGet cfg "newAccount").map (fun na => url = na) :
         Except PyError Bool) with
  | .error e => (.error e, [])
  | .ok cond =>
    -- lines 71-75: strip `kid` (if present) or strip `jwk` (`del` raises
    -- `KeyError` when `jwk` is absent)
    match (if cond then
             .ok (if protected0.contains "kid" then protected0.del "kid"
                  else protected0)
           else if protected0.contains "jwk" then .ok (protected0.del "jwk")
           else .error (PyError.keyError "jwk") : Except PyError PyDict) with
    | .error e => (.error e, [])
    | .ok protected1 =>
      -- lines 77-83: outer requests get a nonce, current or fresh
      if is_inner then
        (.ok (finishSign env url keypath payload64 protected1), [])
      else
        match nonceTruthy nonce with
        | some n0 =>
          (.ok (finishSign env url keypath payload64
                  (protected1.set "nonce" (Json.str n0))), [])
        | none =>
          match freshNonce env cfg with
          | (.error e, net) => (.error e, net)
          | (.ok n, net) =>
            (.ok (finishSign env url keypath payload64
                    (protected1.set "nonce" (Json.str n))), net)

/-- Lines 57-90, `_sign_request`: build a signed JWS for `url` with the key
at `keypath`.  The enclosing-function state (`acme_config`, the two key
paths, the two signing-identity templates and the current nonce) is passed
explicitly; the templates are only read — the header is built on a
`copy.deepcopy` (line 65/67) — and `_sign_request` never assigns the
`nonlocal nonce`, so neither templates nor nonce change.  The result also
carries the network calls performed (at most the fresh-nonce GET). -/
def sign_request (env : Env) (cfg : Json)
    (old_accountkeypath new_accountkeypath : String)
    (private_acme_old_signature private_acme_new_signature : PyDict)
    (nonce : Option String) (url keypath : String) (payload : Json)
    (is_inner : Bool) : Except PyError (Json × PyDict) × List NetCall :=
  -- lines 64-69: template selection by key path (new key checked first)
  match (if keypath = new_accountkeypath then .ok private_acme_new_signature
         else if keypath = old_accountkeypath then .ok private_acme_old_signature
         else .error PyError.runtimeUnknownKey : Except PyError PyDict) with
  | .error e => (.error e, [])
  | .ok protected0 =>
      -- the payload64 argument is lines 60-63: the POST-as-GET sentinel
      -- check, else JSON-serialize and base64url-encode
      sign_request_body env cfg nonce url keypath
        (if isEmptyStr payload then "" else b64s (env.dumps payload))
        protected0 is_inner

/-- Lines 92-111, `_send_signed_request`: sign, POST, update the nonce and
decode the body.  On success the returned triple is (response, decoded
body, new nonce value); an empty or non-JSON body is replaced by
`json.dumps({})` — the two-character *string* of an empty object.  The
truthiness test `if response:` is `requests.Response.__bool__`, which is
`self.ok`: false when no response was obtained *and also* for any HTTP
status in [400, 600), in which case the nonce is not read and
`RuntimeError("Unable to get response from ACME server.")` is raised.
The sign-call record and network calls are also returned. -/
def send_signed_request (env : Env) (cfg : Json)
    (old_accountkeypath new_accountkeypath : String)
    (private_acme_old_signature private_acme_new_signature : PyDict)
    (nonce : Option String) (url keypath : String) (payload : Json) :
    Except PyError (HttpResponse × Json × String) × List NetCall × List SignCall :=
  match sign_request env cfg old_accountkeypath new_accountkeypath
      private_acme_old_signature private_acme_new_signature nonce
      url keypath payload false with
  | (.error e, net) => (.error e, net, [])
  | (.ok (jose, prot), net) =>
    match env.httpPost url jose with
    | none =>
        (.error .runtimeNoResponse, net ++ [.post url],
         [⟨url, keypath, payload, false, prot⟩])
    | some response =>
      if 400 ≤ response.status ∧ response.status < 600 then
        (.error .runtimeNoResponse, net ++ [.post url],
         [⟨url, keypath, payload, false, prot⟩])
      else
        match headerGet response.headers "Replay-Nonce" with
        | none =>
            (.error (.keyError "Replay-Nonce"), net ++ [.post url],
             [⟨url, keypath, payload, false, prot⟩])
        | some n =>
            (.ok (response,
                  match response.body with
                  | some j => j
                  | none => Json.str (env.dumps (Json.obj [])), n),
             net ++ [.post url], [⟨url, keypath, payload, false, prot⟩])

/-- Lines 113-151, `account_rollover`: the orchestration.  Returns the
outcome (`.ok ()` = "Keys rolled over."), the network calls performed in
order, and the record of every completed `_sign_request` call. -/
def account_rollover (env : Env)
    (old_accountkeypath new_accountkeypath acme_directory : String) :
    Except PyError Unit × List NetCall × List SignCall :=
  -- line 118: directory fetch; `.json()` raises ValueError on a non-JSON body
  match (env.httpGet acme_directory).body with
  | none => (.error .jsonDecodeError, [.get acme_directory], [])
  | some acme_config =>
  -- lines 120-124: derive the two signing-identity templates
  match get_private_acme_signature env old_accountkeypath with
  | .error e => (.error e, [.get acme_directory], [])
  | .ok old_sig =>
  match get_private_acme_signature env new_accountkeypath with
  | .error e => (.error e, [.get acme_directory], [])
  | .ok new_sig =>
  -- line 127: `acme_config["newAccount"]` evaluated as the call argument
  match cfgGet acme_config "newAccount" with
  | .error e => (.error e, [.get acme_directory], [])
  | .ok newAccountUrl =>
  match send_signed_request env acme_config old_accountkeypath
      new_accountkeypath old_sig new_sig none newAccountUrl
      old_accountkeypath (Json.obj [("onlyReturnExisting", Json.bool true)]) with
  | (.error e, net1, scs1) => (.error e, .get acme_directory :: net1, scs1)
  | (.ok (http_response, result, nonce1), net1, scs1) =>
  -- lines 129-134
  if http_response.status = 200 then
    match headerGet http_response.headers "Location" with
    | none => (.error (.keyError "Location"), .get acme_directory :: net1, scs1)
    | some location =>
    let old_sig := old_sig.set "kid" (Json.str location)
    let new_sig := new_sig.set "kid" (Json.str location)
    -- line 140: `acme_config["keyChange"]` evaluated as the call argument
    match cfgGet acme_config "keyChange" with
    | .error e => (.error e, .get acme_directory :: net1, scs1)
    | .ok keyChangeUrl =>
    -- lines 140-142: inner payload from the old identity's kid and jwk
    match PyDict.get old_sig "kid" with
    | none => (.error (.keyError "kid"), .get acme_directory :: net1, scs1)
    | some kidv =>
    match PyDict.get old_sig "jwk" with
    | none => (.error (.keyError "jwk"), .get acme_directory :: net1, scs1)
    | some jwkv =>
    match sign_request env acme_config old_accountkeypath new_accountkeypath
        old_sig new_sig (some nonce1) keyChangeUrl new_accountkeypath
        (Json.obj [("account", kidv), ("oldKey", jwkv)]) true with
    | (.error e, net2) => (.error e, .get acme_directory :: (net1 ++ net2), scs1)
    | (.ok (inner_payload, prot2), net2) =>
    let sc2 : SignCall := ⟨keyChangeUrl, new_accountkeypath,
                           Json.obj [("account", kidv), ("oldKey", jwkv)], true, prot2⟩
    -- lines 145-150: outer JWS signed by the old key, POSTed to keyChange
    match send_signed_request env acme_config old_accountkeypath
        new_accountkeypath old_sig new_sig (some nonce1) keyChangeUrl
        old_accountkeypath inner_payload with
    | (.error e, net3, scs3) =>
        (.error e, .get acme_directory :: (net1 ++ net2 ++ net3), scs1 ++ [sc2] ++ scs3)
    | (.ok (resp2, result2, _), net3, scs3) =>
      if resp2.status ≠ 200 then
        (.error (.rolloverStatusError resp2.status result2),
         .get acme_directory :: (net1 ++ net2 ++ net3), scs1 ++ [sc2] ++ scs3)
      else
        (.ok (), .get acme_directory :: (net1 ++ net2 ++ net3), scs1 ++ [sc2] ++ scs3)
  else
    (.error (.lookupStatusError http_response.status result),
     .get acme_directory :: net1, scs1)

/-- A simple serializer used to instantiate the external `Env.dumps` in
the concrete environments of witnesses: it agrees with `json.dumps` on
the empty object (the only value whose serialization a claim mentions)
and is deliberately non-recursive so that witness statements evaluate by
kernel reduction. -/
def dumpsFlat : Json → String
  | .obj [] => "\x7b\x7d"
  | .obj (_ :: _) => "O"
  | .str _ => "S"
  | .bool _ => "B"
  | .null => "null"

/-- Directory URL of the concrete test server. -/
def dirUrl : String := "https://ca.example/dir"

/-- `newNonce` endpoint of the concrete test server. -/
def nnUrl : String := "https://ca.example/new-nonce"

/-- `newAccount` endpoint of the concrete test server. -/
def naUrl : String := "https://ca.example/new-acct"

/-- `keyChange` endpoint of the concrete test server. -/
def kcUrl : String := "https://ca.example/key-change"

/-- A complete directory document. -/
def happyCfg : Json :=
  .obj [("newNonce", .str nnUrl), ("newAccount", .str naUrl),
        ("keyChange", .str kcUrl)]

/-- Environment of a fully successful run: the directory is complete, the
account lookup returns 200 with `Location` and `Replay-Nonce`, and the
key-change POST returns 200 with an empty body. -/
def envHappy : Env where
  dumps := dumpsFlat
  signBytes := fun _ _ => [1, 2, 3]
  keyParams := fun _ => some ([9, 9], [1, 0, 1])
  httpGet := fun u =>
    if u = dirUrl then ⟨200, [], some happyCfg⟩
    else ⟨200, [("Replay-Nonce", "nonce-0")], none⟩
  httpPost := fun u _ =>
    if u = naUrl then
      some ⟨200, [("Replay-Nonce", "nonce-1"),
                  ("Location", "https://ca.example/acct/1")],
            some (.obj [("status", .str "valid")])⟩
    else some ⟨200, [("Replay-Nonce", "nonce-2")], none⟩

/-- Environment identical to `envHappy` except that the account-lookup
POST to `newAccount` returns HTTP 403 (with a fresh `Replay-Nonce` and a
JSON problem document). -/
def env403 : Env where
  dumps := dumpsFlat
  signBytes := fun _ _ => [1, 2, 3]
  keyParams := fun _ => some ([9, 9], [1, 0, 1])
  httpGet := fun u =>
    if u = dirUrl then ⟨200, [], some happyCfg⟩
    else ⟨200, [("Replay-Nonce", "nonce-0")], none⟩
  httpPost := fun u _ =>
    if u = naUrl then
      some ⟨403, [("Replay-Nonce", "nonce-fresh")],
            some (.obj [("type", .str "urn:ietf:params:acme:error:unauthorized")])⟩
    else some ⟨200, [("Replay-Nonce", "nonce-2")], none⟩

/-- Directory document missing the `keyChange` entry. -/
def cfgNoKeyChange : Json :=
  .obj [("newNonce", .str nnUrl), ("newAccount", .str naUrl)]

/-- Environment identical to `envHappy` except that the directory document
has no `keyChange` entry. -/
def envNoKeyChange : Env where
  dumps := dumpsFlat
  signBytes := fun _ _ => [1, 2, 3]
  keyParams := fun _ => some ([9, 9], [1, 0, 1])
  httpGet := fun u =>
    if u = dirUrl then ⟨200, [], some cfgNoKeyChange⟩
    else ⟨200, [("Replay-Nonce", "nonce-0")], none⟩
  httpPost := fun u _ =>
    if u = naUrl then
      some ⟨200, [("Replay-Nonce", "nonce-1"),
                  ("Location", "https://ca.example/acct/1")],
            some (.obj [("status", .str "valid")])⟩
    else some ⟨200, [("Replay-Nonce", "nonce-2")], none⟩

/-- A concrete signing-identity template (shape produced by
`_get_private_acme_signature`), for instantiating witnesses. -/
def tmplDemo : PyDict :=
  [("alg", .str "RS256"),
   ("jwk", .obj [("e", .str "AQAB"), ("kty", .str "RSA"), ("n", .str "mQ")])]

instance : Inhabited SignCall := ⟨⟨"", "", Json.null, false, []⟩⟩

/-- Concrete sign-request used by witnesses of the POST-as-GET property:
a call with the empty-string sentinel payload under `envHappy`.  The three
components of its (successful) result. -/
def c9call : Except PyError (Json × PyDict) × List NetCall :=
  sign_request envHappy happyCfg "old.key" "new.key" tmplDemo tmplDemo
    (some "N1") naUrl "old.key" (Json.str "") false

/-- The JWS produced by `c9call`. -/
def c9jws : Json := (c9call.1.toOption.getD (Json.null, [])).1

/-- The finalized protected header produced by `c9call`. -/
def c9prot : PyDict := (c9call.1.toOption.getD (Json.null, [])).2

/-- The JWK the concrete environments derive for every key path. -/
def jwkHappy : Json :=
  .obj [("e", .str "AQAB"), ("kty", .str "RSA"), ("n", .str "CQk")]

/-- The account-lookup sign call recorded by the `envHappy` run. -/
def scLookup : SignCall :=
  ⟨naUrl, "old.key", .obj [("onlyReturnExisting", .bool true)], false,
   [("alg", .str "RS256"), ("jwk", jwkHappy), ("nonce", .str "nonce-0"),
    ("url", .str naUrl)]⟩

/-- The inner key-change sign call recorded by the `envHappy` run. -/
def scInner : SignCall :=
  ⟨kcUrl, "new.key",
   .obj [("account", .str "https://ca.example/acct/1"), ("oldKey", jwkHappy)],
   true,
   [("alg", .str "RS256"), ("jwk", jwkHappy), ("url", .str kcUrl)]⟩

/-- Specification of one completed `_sign_request` call of a run of
`account_rollover`: the key path is one of the two account keys; the
finalized protected header carries exactly one of `jwk`/`kid`, selected by
the (inner, target-is-newAccount) rule; and the inner call is signed by
the new key, targets the `keyChange` URL, has no `nonce` in its header,
and its payload is exactly the account/oldKey object, where the account
field is the `kid` installed from the `Location` header of the 200
account-lookup response (a POST to the newAccount endpoint) and the
oldKey field is the old identity's originally derived JWK. -/
def RunCallSpec (env : Env) (o n dir : String) (sc : SignCall) : Prop :=
  (sc.keypath = o ∨ sc.keypath = n) ∧
  (∃ cfg naU, (env.httpGet dir).body = some cfg ∧
     cfgGet cfg "newAccount" = .ok naU ∧
     ((sc.isInner = true ∨ sc.url = naU) →
         sc.header.contains "jwk" = true ∧ sc.header.contains "kid" = false) ∧
     (sc.isInner = false → sc.url ≠ naU →
         sc.header.contains "kid" = true ∧ sc.header.contains "jwk" = false)) ∧
  (sc.isInner = true →
     sc.keypath = n ∧ sc.header.contains "nonce" = false ∧
     (∃ cfg kcU, (env.httpGet dir).body = some cfg ∧
        cfgGet cfg "keyChange" = .ok kcU ∧ sc.url = kcU) ∧
     (∃ cfg naU jose resp kid a oldJwk,
        (env.httpGet dir).body = some cfg ∧
        cfgGet cfg "newAccount" = .ok naU ∧
        env.httpPost naU jose = some resp ∧
        resp.status = 200 ∧
        headerGet resp.headers "Location" = some kid ∧
        get_private_acme_signature env o = .ok [("alg", a), ("jwk", oldJwk)] ∧
        sc.payload = Json.obj [("account", Json.str kid), ("oldKey", oldJwk)]))

/-! ## Lemmas about `PyDict` operations -/

theorem PyDict.del_eq_of_not_contains (d : PyDict) (k : String)
    (h : d.contains k = false) : d.del k = d := by
  induction d with
  | nil => rfl
  | cons p rest ih =>
    simp only [PyDict.contains, List.any_cons, Bool.or_eq_false_iff] at h
    have h1 : ¬ p.1 = k := by simpa using h.1
    have h2 : PyDict.contains rest k = false := h.2
    have h3 := ih h2
    simp only [PyDict.del, List.filter_cons] at h3 ⊢
    rw [if_pos (by simp [h1]), h3]

theorem PyDict.condDel (d : PyDict) (k : String) :
    (if d.contains k then d.del k else d) = d.del k := by
  cases h : d.contains k with
  | true => simp
  | false => simp [PyDict.del_eq_of_not_contains d k h]

/-! ## Lemmas about the base64url codec -/

theorem charVal_b64CharAux : ∀ i, i < 64 → charVal (b64CharAux i) = i := by decide

theorem b64CharAux_ne_pad : ∀ i, i < 64 → b64CharAux i ≠ '=' := by decide

theorem charVal_b64Char (v : Nat) (h : v < 64) : charVal (b64Char v) = v := by
  have hm : v % 64 = v := Nat.mod_eq_of_lt h
  unfold b64Char
  rw [hm]
  exact charVal_b64CharAux v h

theorem b64Char_ne_pad (v : Nat) : b64Char v ≠ '=' :=
  b64CharAux_ne_pad (v % 64) (Nat.mod_lt v (by omega))

theorem b64decode_b64encode (s : List Nat) (hs : ∀ x ∈ s, x < 256) :
    b64decode (b64encode s) = s := by
  induction s using b64encode.induct with
  | case1 => rfl
  | case2 a =>
    have ha : a < 256 := hs a (by simp)
    simp only [b64encode, b64decode]
    rw [charVal_b64Char (a / 4) (by omega), charVal_b64Char (a % 4 * 16) (by omega)]
    simp only [List.cons.injEq, and_true]
    omega
  | case3 a b =>
    have ha : a < 256 := hs a (by simp)
    have hb : b < 256 := hs b (by simp)
    simp only [b64encode, b64decode]
    rw [charVal_b64Char (a / 4) (by omega),
        charVal_b64Char (a % 4 * 16 + b / 16) (by omega),
        charVal_b64Char (b % 16 * 4) (by omega)]
    simp only [List.cons.injEq, and_true]
    constructor
    · omega
    · omega
  | case4 a b c rest ih =>
    have ha : a < 256 := hs a (by simp)
    have hb : b < 256 := hs b (by simp)
    have hc : c < 256 := hs c (by simp)
    have hrest : ∀ x ∈ rest, x < 256 := fun x hx => hs x (by simp [hx])
    simp only [b64encode, b64decode]
    rw [charVal_b64Char (a / 4) (by omega),
        charVal_b64Char (a % 4 * 16 + b / 16) (by omega),
        charVal_b64Char (b % 16 * 4 + c / 64) (by omega),
        charVal_b64Char (c % 64) (by omega)]
    rw [ih hrest]
    simp only [List.cons.injEq, and_true]
    refine ⟨by omega, by omega, by omega⟩

theorem b64encode_no_pad (s : List Nat) : '=' ∉ b64encode s := by
  induction s using b64encode.induct with
  | case1 => simp [b64encode]
  | case2 a =>
    simp only [b64encode, List.mem_cons, List.not_mem_nil, or_false]
    intro h
    rcases h with h | h <;> exact b64Char_ne_pad _ h.symm
  | case3 a b =>
    simp only [b64encode, List.mem_cons, List.not_mem_nil, or_false]
    intro h
    rcases h with h | h | h <;> exact b64Char_ne_pad _ h.symm
  | case4 a b c rest ih =>
    simp only [b64encode, List.mem_cons]
    intro h
    rcases h with h | h | h | h | h
    · exact b64Char_ne_pad _ h.symm
    · exact b64Char_ne_pad _ h.symm
    · exact b64Char_ne_pad _ h.symm
    · exact b64Char_ne_pad _ h.symm
    · exact ih h

/-- C7: for every byte string `s`, decoding the base64url encoding
produced by the codec `_b64` recovers `s` exactly, and the encoded form
never contains an `=` padding character. -/
theorem c7_b64_roundtrip_and_no_padding :
    (∀ s : List Nat, (∀ x ∈ s, x < 256) → b64decode (b64 s).data = s) ∧
    (∀ s : List Nat, '=' ∉ (b64 s).data) := by
  constructor
  · intro s hs
    show b64decode (b64encode s) = s
    exact b64decode_b64encode s hs
  · intro s
    show '=' ∉ b64encode s
    exact b64encode_no_pad s

/-- Witness for C7 at the concrete byte string `[0, 77, 255, 10]`. -/
theorem c7_witness :
    (∀ x ∈ [0, 77, 255, 10], x < 256) ∧
    b64decode (b64 [0, 77, 255, 10]).data = [0, 77, 255, 10] :=
  ⟨by decide, c7_b64_roundtrip_and_no_padding.1 [0, 77, 255, 10] (by decide)⟩


/-! ## Shape of a successful `_sign_request` -/

theorem finish_result {env : Env} {url kp p64 : String} {pr : PyDict}
    {jws : Json} {prot : PyDict} {L net : List NetCall}
    (h : ((Except.ok (finishSign env url kp p64 pr), L) :
          Except PyError (Json × PyDict) × List NetCall) = (.ok (jws, prot), net)) :
    prot = pr.set "url" (Json.str url) := by
  have h1 := congrArg Prod.fst h
  have h2 := Except.ok.inj h1
  have h3 := congrArg Prod.snd h2
  simpa [finishSign] using h3.symm

theorem finish_payload {env : Env} {url kp p64 : String} {pr : PyDict}
    {jws : Json} {prot : PyDict} {L net : List NetCall}
    (h : ((Except.ok (finishSign env url kp p64 pr), L) :
          Except PyError (Json × PyDict) × List NetCall) = (.ok (jws, prot), net)) :
    jws.objGet "payload" = some (.str p64) := by
  have h2 := Except.ok.inj (congrArg Prod.fst h)
  have h3 : (finishSign env url kp p64 pr).1 = jws := congrArg Prod.fst h2
  rw [← h3]
  simp [finishSign, Json.objGet, PyDict.get, List.find?]

theorem sign_request_body_ok_shape (env : Env) (cfg : Json)
    (nonce : Option String) (url kp p64 : String) (tmpl : PyDict)
    (inner : Bool) (jws : Json) (prot : PyDict) (net : List NetCall)
    (h : sign_request_body env cfg nonce url kp p64 tmpl inner =
         (.ok (jws, prot), net)) :
    jws.objGet "payload" = some (.str p64) ∧
    ((inner = true ∧ prot = (tmpl.del "kid").set "url" (.str url)) ∨
     (inner = false ∧ ∃ naU nn, cfgGet cfg "newAccount" = .ok naU ∧
       ((url = naU ∧
         prot = ((tmpl.del "kid").set "nonce" (.str nn)).set "url" (.str url)) ∨
        (url ≠ naU ∧ tmpl.contains "jwk" = true ∧
         prot = ((tmpl.del "jwk").set "nonce" (.str nn)).set "url" (.str url))))) := by
  cases inner with
  | true =>
    unfold sign_request_body at h
    rw [PyDict.condDel] at h
    exact ⟨finish_payload h, Or.inl ⟨rfl, finish_result h⟩⟩
  | false =>
    unfold sign_request_body at h
    cases hna : cfgGet cfg "newAccount" with
    | error e =>
      rw [hna] at h
      exact nomatch (show (Except.error e : Except PyError (Json × PyDict)) =
        .ok (jws, prot) from congrArg Prod.fst h)
    | ok naU =>
      rw [hna] at h
      simp only [Except.map] at h
      by_cases hurl : url = naU
      · rw [PyDict.condDel, decide_eq_true hurl] at h
        cases hn : nonceTruthy nonce with
        | some n0 =>
          rw [hn] at h
          exact ⟨finish_payload h,
            Or.inr ⟨rfl, naU, n0, rfl, Or.inl ⟨hurl, finish_result h⟩⟩⟩
        | none =>
          rw [hn] at h
          cases hf : freshNonce env cfg with
          | mk f net2 =>
            cases f with
            | error e =>
              rw [hf] at h
              exact nomatch (show (Except.error e : Except PyError (Json × PyDict)) =
                .ok (jws, prot) from congrArg Prod.fst h)
            | ok fn =>
              rw [hf] at h
              exact ⟨finish_payload h,
                Or.inr ⟨rfl, naU, fn, rfl, Or.inl ⟨hurl, finish_result h⟩⟩⟩
      · rw [decide_eq_false hurl] at h
        cases hj : tmpl.contains "jwk" with
        | false =>
          rw [hj] at h
          exact nomatch (show (Except.error (PyError.keyError "jwk") :
            Except PyError (Json × PyDict)) = .ok (jws, prot) from congrArg Prod.fst h)
        | true =>
          rw [hj] at h
          cases hn : nonceTruthy nonce with
          | some n0 =>
            rw [hn] at h
            exact ⟨finish_payload h,
              Or.inr ⟨rfl, naU, n0, rfl, Or.inr ⟨hurl, rfl, finish_result h⟩⟩⟩
          | none =>
            rw [hn] at h
            cases hf : freshNonce env cfg with
            | mk f net2 =>
              cases f with
              | error e =>
                rw [hf] at h
                exact nomatch (show (Except.error e : Except PyError (Json × PyDict)) =
                  .ok (jws, prot) from congrArg Prod.fst h)
              | ok fn =>
                rw [hf] at h
                exact ⟨finish_payload h,
                  Or.inr ⟨rfl, naU, fn, rfl, Or.inr ⟨hurl, rfl, finish_result h⟩⟩⟩

theorem cfgGet_error (cfg : Json) (k : String) (e : PyError)
    (h : cfgGet cfg k = .error e) : e = .keyError k ∨ e = .typeMismatch k := by
  unfold cfgGet at h
  split at h <;> (try split at h) <;> simp_all

theorem freshNonce_error (env : Env) (cfg : Json) (e : PyError)
    (net : List NetCall) (h : freshNonce env cfg = (.error e, net)) :
    (∃ k, e = .keyError k) ∨ (∃ k, e = .typeMismatch k) := by
  unfold freshNonce at h
  split at h
  · rename_i e0 heq
    have := congrArg Prod.fst h
    simp only at this
    cases Except.error.inj this.symm
    rcases cfgGet_error cfg "newNonce" e heq with h1 | h1
    · exact Or.inl ⟨_, h1⟩
    · exact Or.inr ⟨_, h1⟩
  · split at h
    · have := congrArg Prod.fst h
      simp only at this
      cases Except.error.inj this.symm
      exact Or.inl ⟨_, rfl⟩
    · exact nomatch (show (Except.ok _ : Except PyError String) = .error e from
        congrArg Prod.fst h)

theorem sign_request_body_error (env : Env) (cfg : Json)
    (nonce : Option String) (url kp p64 : String) (tmpl : PyDict)
    (inner : Bool) (e : PyError) (net : List NetCall)
    (h : sign_request_body env cfg nonce url kp p64 tmpl inner =
         (.error e, net)) :
    (∃ k, e = .keyError k) ∨ (∃ k, e = .typeMismatch k) := by
  unfold sign_request_body at h
  split at h
  · rename_i e0 heq
    have := congrArg Prod.fst h
    simp only at this
    cases Except.error.inj this.symm
    split at heq
    · exact nomatch heq
    · cases hcg : cfgGet cfg "newAccount" with
      | error e1 =>
        rw [hcg] at heq
        simp only [Except.map] at heq
        cases Except.error.inj heq
        rcases cfgGet_error cfg "newAccount" _ hcg with h1 | h1
        · exact Or.inl ⟨_, h1⟩
        · exact Or.inr ⟨_, h1⟩
      | ok naU =>
        rw [hcg] at heq
        simp [Except.map] at heq
  · rename_i cond hcond
    split at h
    · rename_i e1 heq
      have := congrArg Prod.fst h
      simp only at this
      cases Except.error.inj this.symm
      split at heq
      · exact nomatch heq
      · split at heq
        · exact nomatch heq
        · cases Except.error.inj heq
          exact Or.inl ⟨_, rfl⟩
    · rename_i prot1 heq1
      split at h
      · exact nomatch (show (Except.ok _ : Except PyError (Json × PyDict)) =
          .error e from congrArg Prod.fst h)
      · split at h
        · exact nomatch (show (Except.ok _ : Except PyError (Json × PyDict)) =
            .error e from congrArg Prod.fst h)
        · split at h
          · rename_i e2 net2 heq2
            have := congrArg Prod.fst h
            simp only at this
            cases Except.error.inj this.symm
            exact freshNonce_error env cfg _ _ heq2
          · exact nomatch (show (Except.ok _ : Except PyError (Json × PyDict)) =
              .error e from congrArg Prod.fst h)

theorem sign_request_ok (env : Env) (cfg : Json) (o n : String)
    (os ns : PyDict) (nonce : Option String) (url kp : String)
    (payload : Json) (inner : Bool) (jws : Json) (prot : PyDict)
    (net : List NetCall)
    (h : sign_request env cfg o n os ns nonce url kp payload inner =
         (.ok (jws, prot), net)) :
    ∃ tmpl, ((kp = n ∧ tmpl = ns) ∨ (kp ≠ n ∧ kp = o ∧ tmpl = os)) ∧
      jws.objGet "payload" = some (.str (if isEmptyStr payload then ""
        else b64s (env.dumps payload))) ∧
      ((inner = true ∧ prot = (tmpl.del "kid").set "url" (.str url)) ∨
       (inner = false ∧ ∃ naU nn, cfgGet cfg "newAccount" = .ok naU ∧
         ((url = naU ∧
           prot = ((tmpl.del "kid").set "nonce" (.str nn)).set "url" (.str url)) ∨
          (url ≠ naU ∧ tmpl.contains "jwk" = true ∧
           prot = ((tmpl.del "jwk").set "nonce" (.str nn)).set "url" (.str url))))) := by
  unfold sign_request at h
  by_cases hkn : kp = n
  · rw [if_pos hkn] at h
    obtain ⟨hp, hs⟩ := sign_request_body_ok_shape _ _ _ _ _ _ _ _ _ _ _ h
    exact ⟨ns, Or.inl ⟨hkn, rfl⟩, hp, hs⟩
  · rw [if_neg hkn] at h
    by_cases hko : kp = o
    · rw [if_pos hko] at h
      obtain ⟨hp, hs⟩ := sign_request_body_ok_shape _ _ _ _ _ _ _ _ _ _ _ h
      exact ⟨os, Or.inr ⟨hkn, hko, rfl⟩, hp, hs⟩
    · rw [if_neg hko] at h
      exact nomatch (show (Except.error PyError.runtimeUnknownKey :
        Except PyError (Json × PyDict)) = .ok (jws, prot) from congrArg Prod.fst h)

theorem sign_request_error (env : Env) (cfg : Json) (o n : String)
    (os ns : PyDict) (nonce : Option String) (url kp : String)
    (payload : Json) (inner : Bool) (e : PyError) (net : List NetCall)
    (h : sign_request env cfg o n os ns nonce url kp payload inner =
         (.error e, net)) :
    (kp ≠ n ∧ kp ≠ o ∧ e = .runtimeUnknownKey) ∨
    (∃ k, e = .keyError k) ∨ (∃ k, e = .typeMismatch k) := by
  unfold sign_request at h
  by_cases hkn : kp = n
  · rw [if_pos hkn] at h
    exact Or.inr (sign_request_body_error _ _ _ _ _ _ _ _ _ _ h)
  · rw [if_neg hkn] at h
    by_cases hko : kp = o
    · rw [if_pos hko] at h
      exact Or.inr (sign_request_body_error _ _ _ _ _ _ _ _ _ _ h)
    · rw [if_neg hko] at h
      have h1 := congrArg Prod.fst h
      simp only at h1
      cases Except.error.inj h1
      exact Or.inl ⟨hkn, hko, rfl⟩

theorem send_signed_request_scs (env : Env) (cfg : Json) (o n : String)
    (os ns : PyDict) (nonce : Option String) (url kp : String)
    (payload : Json) (sc : SignCall)
    (hsc : sc ∈ (send_signed_request env cfg o n os ns nonce url kp payload).2.2) :
    ∃ jws prot net2, sign_request env cfg o n os ns nonce url kp payload false =
        (.ok (jws, prot), net2) ∧ sc = ⟨url, kp, payload, false, prot⟩ := by
  unfold send_signed_request at hsc
  split at hsc
  · simp at hsc
  · rename_i jose prot net2 heq
    refine ⟨jose, prot, net2, heq, ?_⟩
    split at hsc <;>
      first
      | simpa using hsc
      | (split at hsc <;>
          first
          | simpa using hsc
          | (split at hsc <;> simpa using hsc))

theorem send_signed_request_ok (env : Env) (cfg : Json) (o n : String)
    (os ns : PyDict) (nonce : Option String) (url kp : String)
    (payload : Json) (resp : HttpResponse) (body : Json) (n3 : String)
    (h : (send_signed_request env cfg o n os ns nonce url kp payload).1 =
         .ok (resp, body, n3)) :
    ∃ jose prot net2, sign_request env cfg o n os ns nonce url kp payload false =
        (.ok (jose, prot), net2) ∧
      env.httpPost url jose = some resp ∧
      ¬(400 ≤ resp.status ∧ resp.status < 600) ∧
      headerGet resp.headers "Replay-Nonce" = some n3 ∧
      body = (match resp.body with
              | some j => j
              | none => Json.str (env.dumps (Json.obj []))) := by
  unfold send_signed_request at h
  split at h
  · simp at h
  · rename_i jose prot net2 heq
    refine ⟨jose, prot, net2, heq, ?_⟩
    split at h
    · simp at h
    · rename_i response hpost
      split at h
      · simp at h
      · rename_i hstat
        split at h
        · simp at h
        · rename_i n4 hrn
          have h2 := Except.ok.inj h
          have hresp : response = resp := congrArg Prod.fst h2
          have hbody : (match response.body with
              | some j => j
              | none => Json.str (env.dumps (Json.obj []))) = body :=
            congrArg (fun t => t.2.1) h2
          have hn : n4 = n3 := congrArg (fun t => t.2.2) h2
          subst hresp hn
          exact ⟨hpost, hstat, hrn, hbody.symm⟩

theorem send_signed_request_error (env : Env) (cfg : Json) (o n : String)
    (os ns : PyDict) (nonce : Option String) (url kp : String)
    (payload : Json) (e : PyError)
    (h : (send_signed_request env cfg o n os ns nonce url kp payload).1 =
         .error e) :
    (kp ≠ n ∧ kp ≠ o ∧ e = .runtimeUnknownKey) ∨ e = .runtimeNoResponse ∨
    (∃ k, e = .keyError k) ∨ (∃ k, e = .typeMismatch k) := by
  unfold send_signed_request at h
  split at h
  · rename_i e0 net0 heq
    have he : e0 = e := Except.error.inj h
    subst he
    rcases sign_request_error _ _ _ _ _ _ _ _ _ _ _ _ _ heq with h1 | h1 | h1
    · exact Or.inl h1
    · exact Or.inr (Or.inr (Or.inl h1))
    · exact Or.inr (Or.inr (Or.inr h1))
  · rename_i jose prot net2 heq
    split at h
    · have he : PyError.runtimeNoResponse = e := Except.error.inj h
      exact Or.inr (Or.inl he.symm)
    · split at h
      · have he : PyError.runtimeNoResponse = e := Except.error.inj h
        exact Or.inr (Or.inl he.symm)
      · split at h
        · have he : PyError.keyError "Replay-Nonce" = e := Except.error.inj h
          exact Or.inr (Or.inr (Or.inl ⟨_, he.symm⟩))
        · exact nomatch (show (Except.ok _ :
            Except PyError (HttpResponse × Json × String)) = .error e from h)

theorem gps_error (env : Env) (p : String) (e : PyError)
    (h : get_private_acme_signature env p = .error e) :
    e = .privateSignatureError := by
  unfold get_private_acme_signature at h
  split at h
  · exact (Except.error.inj h).symm
  · exact nomatch h

theorem gps_ok (env : Env) (p : String) (sig : PyDict)
    (h : get_private_acme_signature env p = .ok sig) :
    ∃ a j, sig = [("alg", a), ("jwk", j)] := by
  unfold get_private_acme_signature at h
  split at h
  · exact nomatch h
  · exact ⟨_, _, (Except.ok.inj h).symm⟩

theorem sendCall_header_newAccount (env : Env) (cfg : Json) (o n : String)
    (os ns : PyDict) (nonce : Option String) (url kp : String)
    (payload : Json) (sc : SignCall)
    (hmem : sc ∈ (send_signed_request env cfg o n os ns nonce url kp payload).2.2)
    (hna : cfgGet cfg "newAccount" = .ok url)
    (hos : ∃ a j, os = [("alg", a), ("jwk", j)])
    (hns : ∃ a j, ns = [("alg", a), ("jwk", j)]) :
    sc.url = url ∧ sc.keypath = kp ∧ sc.isInner = false ∧ sc.payload = payload ∧
    sc.header.contains "jwk" = true ∧ sc.header.contains "kid" = false := by
  obtain ⟨jws, prot, net2, hsig, hsceq⟩ :=
    send_signed_request_scs _ _ _ _ _ _ _ _ _ _ _ hmem
  obtain ⟨tmpl, htmpl, hpay, hshape⟩ :=
    sign_request_ok _ _ _ _ _ _ _ _ _ _ _ _ _ _ hsig
  have htm : ∃ a j, tmpl = [("alg", a), ("jwk", j)] := by
    rcases htmpl with ⟨_, rfl⟩ | ⟨_, _, rfl⟩
    · exact hns
    · exact hos
  obtain ⟨a, j, rfl⟩ := htm
  rcases hshape with ⟨hinner, _⟩ | ⟨_, naU, nn, hna2, hdisj⟩
  · exact nomatch hinner
  · rw [hna] at hna2
    cases Except.ok.inj hna2
    rcases hdisj with ⟨_, hprot⟩ | ⟨hne, _, _⟩
    · subst hsceq
      subst hprot
      refine ⟨rfl, rfl, rfl, rfl, ?_, ?_⟩ <;>
        simp [PyDict.del, PyDict.set, PyDict.contains]
    · exact absurd rfl hne

theorem sendCall_header_kid (env : Env) (cfg : Json) (o n : String)
    (os ns : PyDict) (nonce : Option String) (url kp : String)
    (payload : Json) (sc : SignCall)
    (hmem : sc ∈ (send_signed_request env cfg o n os ns nonce url kp payload).2.2)
    (hos : ∃ a j k, os = [("alg", a), ("jwk", j), ("kid", Json.str k)])
    (hns : ∃ a j k, ns = [("alg", a), ("jwk", j), ("kid", Json.str k)]) :
    sc.url = url ∧ sc.keypath = kp ∧ sc.isInner = false ∧ sc.payload = payload ∧
    ∃ naU, cfgGet cfg "newAccount" = .ok naU ∧
      ((url = naU ∧ sc.header.contains "jwk" = true ∧
        sc.header.contains "kid" = false) ∨
       (url ≠ naU ∧ sc.header.contains "kid" = true ∧
        sc.header.contains "jwk" = false)) := by
  obtain ⟨jws, prot, net2, hsig, hsceq⟩ :=
    send_signed_request_scs _ _ _ _ _ _ _ _ _ _ _ hmem
  obtain ⟨tmpl, htmpl, hpay, hshape⟩ :=
    sign_request_ok _ _ _ _ _ _ _ _ _ _ _ _ _ _ hsig
  have htm : ∃ a j k, tmpl = [("alg", a), ("jwk", j), ("kid", Json.str k)] := by
    rcases htmpl with ⟨_, rfl⟩ | ⟨_, _, rfl⟩
    · exact hns
    · exact hos
  obtain ⟨a, j, k, rfl⟩ := htm
  rcases hshape with ⟨hinner, _⟩ | ⟨_, naU, nn, hna2, hdisj⟩
  · exact nomatch hinner
  · subst hsceq
    rcases hdisj with ⟨heq, hprot⟩ | ⟨hne, _, hprot⟩
    · subst hprot
      refine ⟨rfl, rfl, rfl, rfl, naU, hna2, Or.inl ⟨heq, ?_, ?_⟩⟩ <;>
        simp [PyDict.del, PyDict.set, PyDict.contains]
    · subst hprot
      refine ⟨rfl, rfl, rfl, rfl, naU, hna2, Or.inr ⟨hne, ?_, ?_⟩⟩ <;>
        simp [PyDict.del, PyDict.set, PyDict.contains]

theorem RunCallSpec_of_lookup (env : Env) (cfg : Json) (o n dir naU : String)
    (os ns : PyDict) (payload : Json) (sc : SignCall)
    (hb : (env.httpGet dir).body = some cfg)
    (hna : cfgGet cfg "newAccount" = .ok naU)
    (hos : ∃ a j, os = [("alg", a), ("jwk", j)])
    (hns : ∃ a j, ns = [("alg", a), ("jwk", j)])
    (hmem : sc ∈ (send_signed_request env cfg o n os ns none naU o payload).2.2) :
    RunCallSpec env o n dir sc := by
  obtain ⟨hu, hk, hi, hp, hjwk, hkid⟩ :=
    sendCall_header_newAccount _ _ _ _ _ _ _ _ _ _ _ hmem hna hos hns
  refine ⟨Or.inl hk, ⟨cfg, naU, hb, hna, ?_, ?_⟩, ?_⟩
  · intro _
    exact ⟨hjwk, hkid⟩
  · intro _ hne
    exact absurd hu hne
  · intro hin
    rw [hi] at hin
    exact nomatch hin

theorem RunCallSpec_of_outer (env : Env) (cfg : Json) (o n dir : String)
    (nonce : Option String) (url : String) (os ns : PyDict) (payload : Json)
    (sc : SignCall)
    (hb : (env.httpGet dir).body = some cfg)
    (hos : ∃ a j k, os = [("alg", a), ("jwk", j), ("kid", Json.str k)])
    (hns : ∃ a j k, ns = [("alg", a), ("jwk", j), ("kid", Json.str k)])
    (hmem : sc ∈ (send_signed_request env cfg o n os ns nonce url o payload).2.2) :
    RunCallSpec env o n dir sc := by
  obtain ⟨hu, hk, hi, hp, naU, hna, hdisj⟩ :=
    sendCall_header_kid _ _ _ _ _ _ _ _ _ _ _ hmem hos hns
  refine ⟨Or.inl hk, ⟨cfg, naU, hb, hna, ?_, ?_⟩, ?_⟩
  · intro hor
    rcases hor with hin | hurl
    · rw [hi] at hin
      exact nomatch hin
    · rcases hdisj with ⟨_, hj2, hk2⟩ | ⟨hne, _, _⟩
      · exact ⟨hj2, hk2⟩
      · exact absurd (hu.symm.trans hurl) hne
  · intro _ hne2
    rcases hdisj with ⟨heq2, _, _⟩ | ⟨_, hk2, hj2⟩
    · exact absurd (hu.trans heq2) hne2
    · exact ⟨hk2, hj2⟩
  · intro hin
    rw [hi] at hin
    exact nomatch hin

theorem RunCallSpec_of_inner (env : Env) (cfg : Json) (o n dir naU kcU loc : String)
    (a1 j1 a2 j2 : Json) (nonce1 : String) (inner_payload : Json)
    (prot2 : PyDict) (net2 : List NetCall) (jose1 : Json) (resp1 : HttpResponse)
    (hb : (env.httpGet dir).body = some cfg)
    (hna : cfgGet cfg "newAccount" = .ok naU)
    (hkc : cfgGet cfg "keyChange" = .ok kcU)
    (hgo : get_private_acme_signature env o = .ok [("alg", a1), ("jwk", j1)])
    (hpost1 : env.httpPost naU jose1 = some resp1)
    (hst1 : resp1.status = 200)
    (hloc1 : headerGet resp1.headers "Location" = some loc)
    (hsig2 : sign_request env cfg o n
        (PyDict.set [("alg", a1), ("jwk", j1)] "kid" (Json.str loc))
        (PyDict.set [("alg", a2), ("jwk", j2)] "kid" (Json.str loc))
        (some nonce1) kcU n
        (Json.obj [("account", Json.str loc), ("oldKey", j1)]) true =
        (.ok (inner_payload, prot2), net2)) :
    RunCallSpec env o n dir
      ⟨kcU, n, Json.obj [("account", Json.str loc), ("oldKey", j1)], true, prot2⟩ := by
  obtain ⟨tmpl, htmpl, hpay, hshape⟩ :=
    sign_request_ok _ _ _ _ _ _ _ _ _ _ _ _ _ _ hsig2
  rcases hshape with ⟨_, hprot⟩ | ⟨hfalse, _⟩
  case' intro.intro.intro.inr.intro => exact nomatch hfalse
  have htm : tmpl = PyDict.set [("alg", a2), ("jwk", j2)] "kid" (Json.str loc) := by
    rcases htmpl with ⟨_, h⟩ | ⟨hne, _, _⟩
    · exact h
    · exact absurd rfl hne
  subst htm
  subst hprot
  refine ⟨Or.inr rfl, ⟨cfg, naU, hb, hna, ?_, ?_⟩, ?_⟩
  · intro _
    constructor <;> simp [PyDict.del, PyDict.set, PyDict.contains]
  · intro hfalse2 _
    exact nomatch hfalse2
  · intro _
    refine ⟨rfl, ?_, ⟨cfg, kcU, hb, hkc, rfl⟩,
      ⟨cfg, naU, jose1, resp1, loc, a1, j1, hb, hna, hpost1, hst1, hloc1, hgo, rfl⟩⟩
    simp [PyDict.del, PyDict.set, PyDict.contains]

theorem account_rollover_scs (env : Env) (o n dir : String) :
    ∀ sc ∈ (account_rollover env o n dir).2.2, RunCallSpec env o n dir sc := by
  intro sc hsc
  unfold account_rollover at hsc
  split at hsc
  · simp at hsc
  rename_i cfg hb
  split at hsc
  · simp at hsc
  rename_i os0 hgo
  split at hsc
  · simp at hsc
  rename_i ns0 hgn
  split at hsc
  · simp at hsc
  rename_i naU hna
  obtain ⟨a1, j1, hos⟩ := gps_ok _ _ _ hgo
  obtain ⟨a2, j2, hns⟩ := gps_ok _ _ _ hgn
  split at hsc
  · -- send#1 returned an error: only the lookup sign call was recorded
    rename_i e net1 scs1 hs1
    have hmem : sc ∈ (send_signed_request env cfg o n os0 ns0 none naU o
        (Json.obj [("onlyReturnExisting", Json.bool true)])).2.2 := by
      rw [hs1]; exact hsc
    exact RunCallSpec_of_lookup env cfg o n dir naU os0 ns0 _ sc hb hna
      ⟨a1, j1, hos⟩ ⟨a2, j2, hns⟩ hmem
  rename_i resp1 result1 nonce1 net1 scs1 hs1
  have hP1 : ∀ sc' ∈ scs1, RunCallSpec env o n dir sc' := by
    intro sc' hm
    have hmem : sc' ∈ (send_signed_request env cfg o n os0 ns0 none naU o
        (Json.obj [("onlyReturnExisting", Json.bool true)])).2.2 := by
      rw [hs1]; exact hm
    exact RunCallSpec_of_lookup env cfg o n dir naU os0 ns0 _ sc' hb hna
      ⟨a1, j1, hos⟩ ⟨a2, j2, hns⟩ hmem
  split at hsc
  case isFalse => exact hP1 sc hsc
  rename_i hst200
  split at hsc
  · exact hP1 sc hsc
  rename_i loc hloc
  split at hsc
  · exact hP1 sc hsc
  rename_i kcU hkc
  subst hos
  subst hns
  dsimp only at hsc
  split at hsc
  · exact hP1 sc hsc
  rename_i kidv hkidv
  split at hsc
  · exact hP1 sc hsc
  rename_i jwkv hjwkv
  -- compute kidv and jwkv from the literal dict
  have hkidv2 : kidv = Json.str loc := by
    rw [show PyDict.get (PyDict.set [("alg", a1), ("jwk", j1)] "kid"
        (Json.str loc)) "kid" = some (Json.str loc) by
      simp [PyDict.set, PyDict.contains, PyDict.get, List.find?]] at hkidv
    exact (Option.some.inj hkidv).symm
  have hjwkv2 : jwkv = j1 := by
    rw [show PyDict.get (PyDict.set [("alg", a1), ("jwk", j1)] "kid"
        (Json.str loc)) "jwk" = some j1 by
      simp [PyDict.set, PyDict.contains, PyDict.get, List.find?]] at hjwkv
    exact (Option.some.inj hjwkv).symm
  rw [hkidv2, hjwkv2] at hsc
  split at hsc
  · exact hP1 sc hsc
  rename_i inner_payload prot2 net2 hsig2
  have hok1 : (send_signed_request env cfg o n [("alg", a1), ("jwk", j1)]
      [("alg", a2), ("jwk", j2)] none naU o
      (Json.obj [("onlyReturnExisting", Json.bool true)])).1 =
      .ok (resp1, result1, nonce1) := by rw [hs1]
  obtain ⟨jose1, prot1, net1x, hsig1x, hpost1, hstx, hrnx, hbodyx⟩ :=
    send_signed_request_ok _ _ _ _ _ _ _ _ _ _ _ _ _ hok1
  have hP2 : RunCallSpec env o n dir
      ⟨kcU, n, Json.obj [("account", Json.str loc), ("oldKey", j1)], true, prot2⟩ :=
    RunCallSpec_of_inner env cfg o n dir naU kcU loc a1 j1 a2 j2 nonce1
      inner_payload prot2 net2 jose1 resp1 hb hna hkc hgo hpost1 hst200 hloc hsig2
  split at hsc
  · -- outer send failed
    rename_i e net3 scs3 hs3
    have hP3 : ∀ sc' ∈ scs3, RunCallSpec env o n dir sc' := by
      intro sc' hm
      have hmem : sc' ∈ (send_signed_request env cfg o n
          (PyDict.set [("alg", a1), ("jwk", j1)] "kid" (Json.str loc))
          (PyDict.set [("alg", a2), ("jwk", j2)] "kid" (Json.str loc))
          (some nonce1) kcU o inner_payload).2.2 := by
        rw [hs3]; exact hm
      refine RunCallSpec_of_outer env cfg o n dir (some nonce1) kcU _ _ _ sc' hb
        ⟨a1, j1, loc, ?_⟩ ⟨a2, j2, loc, ?_⟩ hmem <;>
        simp [PyDict.set, PyDict.contains]
    simp only [List.mem_append, List.mem_singleton] at hsc
    rcases hsc with (h1 | h2) | h3
    · exact hP1 sc h1
    · rw [h2]; exact hP2
    · exact hP3 sc h3
  rename_i resp2 result2 nonce2 net3 scs3 hs3
  have hP3 : ∀ sc' ∈ scs3, RunCallSpec env o n dir sc' := by
    intro sc' hm
    have hmem : sc' ∈ (send_signed_request env cfg o n
        (PyDict.set [("alg", a1), ("jwk", j1)] "kid" (Json.str loc))
        (PyDict.set [("alg", a2), ("jwk", j2)] "kid" (Json.str loc))
        (some nonce1) kcU o inner_payload).2.2 := by
      rw [hs3]; exact hm
    refine RunCallSpec_of_outer env cfg o n dir (some nonce1) kcU _ _ _ sc' hb
      ⟨a1, j1, loc, ?_⟩ ⟨a2, j2, loc, ?_⟩ hmem <;>
      simp [PyDict.set, PyDict.contains]
  split at hsc <;>
  · simp only [List.mem_append, List.mem_singleton] at hsc
    rcases hsc with (h1 | h2) | h3
    · exact hP1 sc h1
    · rw [h2]; exact hP2
    · exact hP3 sc h3

theorem account_rollover_ne_unknownKey (env : Env) (o n dir : String) :
    (account_rollover env o n dir).1 ≠ .error .runtimeUnknownKey := by
  intro hc
  unfold account_rollover at hc
  split at hc
  · exact nomatch (Except.error.inj hc)
  split at hc
  · rename_i e hgo
    cases gps_error _ _ _ hgo
    exact nomatch (Except.error.inj hc)
  split at hc
  · rename_i e hgn
    cases gps_error _ _ _ hgn
    exact nomatch (Except.error.inj hc)
  split at hc
  · rename_i e hna
    rcases cfgGet_error _ _ _ hna with h1 | h1 <;>
      (cases h1; exact nomatch (Except.error.inj hc))
  split at hc
  · rename_i e net1 scs1 hs1
    have he : e = .runtimeUnknownKey := Except.error.inj hc
    subst he
    have := congrArg Prod.fst hs1
    rcases send_signed_request_error _ _ _ _ _ _ _ _ _ _ _ this with
      ⟨_, hko, _⟩ | h1 | ⟨k, h1⟩ | ⟨k, h1⟩
    · exact hko rfl
    · exact nomatch h1
    · exact nomatch h1
    · exact nomatch h1
  rename_i resp1 result1 nonce1 net1 scs1 hs1
  split at hc
  case isFalse => exact nomatch (Except.error.inj hc)
  split at hc
  · exact nomatch (Except.error.inj hc)
  rename_i loc hloc
  split at hc
  · rename_i e hkc
    rcases cfgGet_error _ _ _ hkc with h1 | h1 <;>
      (cases h1; exact nomatch (Except.error.inj hc))
  rename_i kcU hkc
  dsimp only at hc
  split at hc
  · exact nomatch (Except.error.inj hc)
  rename_i kidv hkidv
  split at hc
  · exact nomatch (Except.error.inj hc)
  rename_i jwkv hjwkv
  split at hc
  · rename_i e net2 hsig2
    have he : e = .runtimeUnknownKey := Except.error.inj hc
    subst he
    rcases sign_request_error _ _ _ _ _ _ _ _ _ _ _ _ _ hsig2 with
      ⟨hkn, _, _⟩ | ⟨k, h1⟩ | ⟨k, h1⟩
    · exact hkn rfl
    · exact nomatch h1
    · exact nomatch h1
  rename_i inner_payload prot2 net2 hsig2
  split at hc
  · rename_i e net3 scs3 hs3
    have he : e = .runtimeUnknownKey := Except.error.inj hc
    subst he
    have := congrArg Prod.fst hs3
    rcases send_signed_request_error _ _ _ _ _ _ _ _ _ _ _ this with
      ⟨_, hko, _⟩ | h1 | ⟨k, h1⟩ | ⟨k, h1⟩
    · exact hko rfl
    · exact nomatch h1
    · exact nomatch h1
    · exact nomatch h1
  rename_i resp2 result2 nonce2 net3 scs3 hs3
  split at hc
  · exact nomatch (Except.error.inj hc)
  · exact nomatch (show (Except.ok () : Except PyError Unit) =
      .error .runtimeUnknownKey from hc)

theorem isEmptyStr_true {p : Json} (h : isEmptyStr p = true) : p = Json.str "" := by
  unfold isEmptyStr at h
  split at h
  · rfl
  · exact nomatch h

theorem PyDict.get_eq_none (d : PyDict) (k : String) (h : d.contains k = false) :
    d.get k = none := by
  induction d with
  | nil => rfl
  | cons p rest ih =>
    simp only [PyDict.contains, List.any_cons, Bool.or_eq_false_iff] at h
    unfold PyDict.get
    simp only [List.find?, h.1]
    have := ih h.2
    simpa [PyDict.get] using this

/-! ## Claim theorems -/

/-- C1: in every run of `account_rollover`, every finalized protected
header contains exactly one of the fields `jwk` and `kid`, selected by the
rule of line 71: `jwk` (and no `kid`) when the signature is inner or the
target URL is the directory's newAccount endpoint, and `kid` (and no
`jwk`) otherwise. -/
theorem c1_header_field_selection (env : Env) (o n dir : String)
    (sc : SignCall) (hsc : sc ∈ (account_rollover env o n dir).2.2) :
    ∃ cfg naU, (env.httpGet dir).body = some cfg ∧
      cfgGet cfg "newAccount" = .ok naU ∧
      ((sc.isInner = true ∨ sc.url = naU) →
          sc.header.contains "jwk" = true ∧ sc.header.contains "kid" = false) ∧
      (sc.isInner = false → sc.url ≠ naU →
          sc.header.contains "kid" = true ∧ sc.header.contains "jwk" = false) :=
  (account_rollover_scs env o n dir sc hsc).2.1

/-- Witness for C1 at the account-lookup call of the concrete successful
run. -/
theorem c1_witness :
    (scLookup ∈ (account_rollover envHappy "old.key" "new.key" dirUrl).2.2) ∧
    (∃ cfg naU, (envHappy.httpGet dirUrl).body = some cfg ∧
      cfgGet cfg "newAccount" = .ok naU ∧
      ((scLookup.isInner = true ∨ scLookup.url = naU) →
          scLookup.header.contains "jwk" = true ∧
          scLookup.header.contains "kid" = false) ∧
      (scLookup.isInner = false → scLookup.url ≠ naU →
          scLookup.header.contains "kid" = true ∧
          scLookup.header.contains "jwk" = false)) :=
  ⟨List.get?_mem (show (account_rollover envHappy "old.key" "new.key" dirUrl).2.2.get? 0
      = some scLookup from rfl),
   c1_header_field_selection envHappy "old.key" "new.key" dirUrl scLookup
     (List.get?_mem (show (account_rollover envHappy "old.key" "new.key" dirUrl).2.2.get? 0
        = some scLookup from rfl))⟩

/-- C4: in every run, the inner JWS is signed by the new key, targets the
`keyChange` URL, carries `jwk` but neither `kid` nor `nonce` in its
protected header, and its payload is exactly the object
`{account: <kid>, oldKey: <the old key's JWK>}`, where `<kid>` is the
account identifier installed from the `Location` header of the HTTP 200
response to the account-lookup POST at the newAccount endpoint, and the
oldKey is the old key's originally derived JWK. -/
theorem c4_inner_jws (env : Env) (o n dir : String) (sc : SignCall)
    (hsc : sc ∈ (account_rollover env o n dir).2.2) (hin : sc.isInner = true) :
    sc.keypath = n ∧
    (∃ cfg kcU, (env.httpGet dir).body = some cfg ∧
       cfgGet cfg "keyChange" = .ok kcU ∧ sc.url = kcU) ∧
    sc.header.contains "jwk" = true ∧ sc.header.contains "kid" = false ∧
    sc.header.contains "nonce" = false ∧
    (∃ cfg naU jose resp kid a oldJwk,
       (env.httpGet dir).body = some cfg ∧
       cfgGet cfg "newAccount" = .ok naU ∧
       env.httpPost naU jose = some resp ∧
       resp.status = 200 ∧
       headerGet resp.headers "Location" = some kid ∧
       get_private_acme_signature env o = .ok [("alg", a), ("jwk", oldJwk)] ∧
       sc.payload = Json.obj [("account", Json.str kid), ("oldKey", oldJwk)]) := by
  obtain ⟨hkp, ⟨cfg, naU, hb, hna, himp1, _⟩, hthird⟩ :=
    account_rollover_scs env o n dir sc hsc
  obtain ⟨hkpn, hnonce, hkcU, hpayload⟩ := hthird hin
  obtain ⟨hjwk, hkid⟩ := himp1 (Or.inl hin)
  exact ⟨hkpn, hkcU, hjwk, hkid, hnonce, hpayload⟩

/-- Witness for C4 at the inner call of the concrete successful run. -/
theorem c4_witness :
    (scInner ∈ (account_rollover envHappy "old.key" "new.key" dirUrl).2.2) ∧
    scInner.isInner = true ∧
    (scInner.keypath = "new.key" ∧
     (∃ cfg kcU, (envHappy.httpGet dirUrl).body = some cfg ∧
        cfgGet cfg "keyChange" = .ok kcU ∧ scInner.url = kcU) ∧
     scInner.header.contains "jwk" = true ∧
     scInner.header.contains "kid" = false ∧
     scInner.header.contains "nonce" = false ∧
     (∃ cfg naU jose resp kid a oldJwk,
        (envHappy.httpGet dirUrl).body = some cfg ∧
        cfgGet cfg "newAccount" = .ok naU ∧
        envHappy.httpPost naU jose = some resp ∧
        resp.status = 200 ∧
        headerGet resp.headers "Location" = some kid ∧
        get_private_acme_signature envHappy "old.key" =
          .ok [("alg", a), ("jwk", oldJwk)] ∧
        scInner.payload = Json.obj [("account", Json.str kid), ("oldKey", oldJwk)])) :=
  ⟨List.get?_mem (show (account_rollover envHappy "old.key" "new.key" dirUrl).2.2.get? 1
      = some scInner from rfl), rfl,
   c4_inner_jws envHappy "old.key" "new.key" dirUrl scInner
     (List.get?_mem (show (account_rollover envHappy "old.key" "new.key" dirUrl).2.2.get? 1
        = some scInner from rfl)) rfl⟩

/-- C10: the signing-identity templates are never mutated by
`_sign_request` (header stripping happens on a deep copy), so when the
inner key-change payload is built — after `kid` has been installed and
after the lookup call already stripped fields from a copy of the old
template — the old identity still holds its original `jwk`, and that very
value is the payload's `oldKey`. -/
theorem c10_templates_frame (env : Env) (o n dir : String) (sc : SignCall)
    (hsc : sc ∈ (account_rollover env o n dir).2.2) (hin : sc.isInner = true) :
    ∃ kid a oldJwk, get_private_acme_signature env o =
        .ok [("alg", a), ("jwk", oldJwk)] ∧
      PyDict.get [("alg", a), ("jwk", oldJwk)] "jwk" = some oldJwk ∧
      sc.payload = Json.obj [("account", Json.str kid), ("oldKey", oldJwk)] := by
  obtain ⟨_, _, hthird⟩ := account_rollover_scs env o n dir sc hsc
  obtain ⟨_, _, _, _, _, _, _, kid, a, oldJwk, _, _, _, _, _, hgo, hpay⟩ :=
    hthird hin
  exact ⟨kid, a, oldJwk, hgo, by simp [PyDict.get, List.find?], hpay⟩

/-- Witness for C10 at the inner call of the concrete successful run. -/
theorem c10_witness :
    (scInner ∈ (account_rollover envHappy "old.key" "new.key" dirUrl).2.2) ∧
    scInner.isInner = true ∧
    (∃ kid a oldJwk, get_private_acme_signature envHappy "old.key" =
        .ok [("alg", a), ("jwk", oldJwk)] ∧
      PyDict.get [("alg", a), ("jwk", oldJwk)] "jwk" = some oldJwk ∧
      scInner.payload = Json.obj [("account", Json.str kid), ("oldKey", oldJwk)]) :=
  ⟨List.get?_mem (show (account_rollover envHappy "old.key" "new.key" dirUrl).2.2.get? 1
      = some scInner from rfl), rfl,
   c10_templates_frame envHappy "old.key" "new.key" dirUrl scInner
     (List.get?_mem (show (account_rollover envHappy "old.key" "new.key" dirUrl).2.2.get? 1
        = some scInner from rfl)) rfl⟩

/-- C8: `_sign_request` raises `RuntimeError("Unknown keypath to sign
request")` exactly when the signing key path is neither the new nor the
old account key, and no run of `account_rollover` can ever raise it,
since the orchestration only signs with those two key paths. -/
theorem c8_unknown_key :
    (∀ env cfg o n os ns nonce url kp payload inner,
      ((sign_request env cfg o n os ns nonce url kp payload inner).1 =
        .error .runtimeUnknownKey ↔ kp ≠ n ∧ kp ≠ o)) ∧
    (∀ env o n dir,
      (account_rollover env o n dir).1 ≠ .error .runtimeUnknownKey) := by
  constructor
  · intro env cfg o n os ns nonce url kp payload inner
    constructor
    · intro h
      cases hr : sign_request env cfg o n os ns nonce url kp payload inner with
      | mk f net =>
        rw [hr] at h
        have hf : f = .error .runtimeUnknownKey := h
        rw [hf] at hr
        rcases sign_request_error _ _ _ _ _ _ _ _ _ _ _ _ _ hr with
          ⟨h1, h2, _⟩ | ⟨k, h1⟩ | ⟨k, h1⟩
        · exact ⟨h1, h2⟩
        · exact nomatch h1
        · exact nomatch h1
    · rintro ⟨hkn, hko⟩
      unfold sign_request
      rw [if_neg hkn, if_neg hko]
  · exact account_rollover_ne_unknownKey

/-- Witness for C8: a sign request with a third, unknown key path. -/
theorem c8_witness :
    ("other.key" ≠ "new.key" ∧ "other.key" ≠ "old.key") ∧
    (sign_request envHappy happyCfg "old.key" "new.key" tmplDemo tmplDemo
        none naUrl "other.key" (Json.obj []) false).1 =
      .error .runtimeUnknownKey :=
  ⟨⟨by decide, by decide⟩,
   (c8_unknown_key.1 envHappy happyCfg "old.key" "new.key" tmplDemo tmplDemo
      none naUrl "other.key" (Json.obj []) false).mpr ⟨by decide, by decide⟩⟩

/-- C9: in a successful `_sign_request`, the JWS `payload` field is the
empty string when the payload argument is the empty-string sentinel
(POST-as-GET), and the base64url encoding of the payload's JSON
serialization for every other payload. -/
theorem c9_payload_encoding (env : Env) (cfg : Json) (o n : String)
    (os ns : PyDict) (nonce : Option String) (url kp : String)
    (payload : Json) (inner : Bool) (jws : Json) (prot : PyDict)
    (net : List NetCall)
    (h : sign_request env cfg o n os ns nonce url kp payload inner =
         (.ok (jws, prot), net)) :
    (payload = Json.str "" → jws.objGet "payload" = some (.str "")) ∧
    (payload ≠ Json.str "" →
      jws.objGet "payload" = some (.str (b64s (env.dumps payload)))) := by
  obtain ⟨_, _, hp, _⟩ := sign_request_ok _ _ _ _ _ _ _ _ _ _ _ _ _ _ h
  constructor
  · intro he
    subst he
    rw [show isEmptyStr (Json.str "") = true from rfl, if_pos rfl] at hp
    exact hp
  · intro hne
    have hf : isEmptyStr payload = false := by
      cases hb : isEmptyStr payload with
      | false => rfl
      | true => exact absurd (isEmptyStr_true hb) hne
    rw [hf] at hp
    simpa using hp

/-- Witness for C9 at a concrete POST-as-GET call. -/
theorem c9_witness :
    sign_request envHappy happyCfg "old.key" "new.key" tmplDemo tmplDemo
      (some "N1") naUrl "old.key" (Json.str "") false =
      (.ok (c9jws, c9prot), []) ∧
    Json.str "" = Json.str "" ∧
    c9jws.objGet "payload" = some (.str "") :=
  ⟨rfl, rfl,
   (c9_payload_encoding envHappy happyCfg "old.key" "new.key" tmplDemo tmplDemo
      (some "N1") naUrl "old.key" (Json.str "") false c9jws c9prot [] rfl).1 rfl⟩

/-- C5 counterexample: at a concrete transport call whose response has an
empty (non-JSON) body, the decoded body the transport returns is the
two-character *string* `json.dumps({})`, which is not a JSON object, so
the claim's "empty object" is false as stated. -/
theorem c5_counterexample :
    (send_signed_request envHappy happyCfg "old.key" "new.key" tmplDemo
        tmplDemo (some "N1") kcUrl "old.key"
        (Json.obj [("k", Json.str "v")])).1 =
      .ok (⟨200, [("Replay-Nonce", "nonce-2")], none⟩,
           Json.str "\x7b\x7d", "nonce-2") ∧
    (∀ fields, Json.str "\x7b\x7d" ≠ Json.obj fields) :=
  ⟨rfl, fun _ h => nomatch h⟩

/-- C5 (amended): a transport call that obtains a response never fails on
the body: an empty or non-JSON body is replaced by the *string*
`json.dumps({})`, a JSON body is passed through, and success requires the
status to be outside requests' error range [400, 600). -/
theorem c5_amended :
    (∀ env cfg o n os ns nonce url kp payload resp body n3,
       (send_signed_request env cfg o n os ns nonce url kp payload).1 =
         .ok (resp, body, n3) →
       (resp.body = none → body = Json.str (env.dumps (Json.obj []))) ∧
       (∀ j, resp.body = some j → body = j) ∧
       ¬(400 ≤ resp.status ∧ resp.status < 600)) ∧
    (∀ env cfg o n os ns nonce url kp payload jose prot net2 resp n3,
       sign_request env cfg o n os ns nonce url kp payload false =
         (.ok (jose, prot), net2) →
       env.httpPost url jose = some resp →
       ¬(400 ≤ resp.status ∧ resp.status < 600) →
       headerGet resp.headers "Replay-Nonce" = some n3 →
       resp.body = none →
       (send_signed_request env cfg o n os ns nonce url kp payload).1 =
         .ok (resp, Json.str (env.dumps (Json.obj [])), n3)) := by
  constructor
  · intro env cfg o n os ns nonce url kp payload resp body n3 h
    obtain ⟨jose, prot, net2, _, _, hstat, hrn, hbody⟩ :=
      send_signed_request_ok _ _ _ _ _ _ _ _ _ _ _ _ _ h
    refine ⟨?_, ?_, hstat⟩
    · intro hn
      rw [hn] at hbody
      exact hbody
    · intro j hj
      rw [hj] at hbody
      exact hbody
  · intro env cfg o n os ns nonce url kp payload jose prot net2 resp n3
      hsig hpost hstat hrn hbody
    unfold send_signed_request
    rw [hsig]
    dsimp only
    rw [hpost]
    dsimp only
    rw [if_neg hstat, hrn]
    dsimp only
    rw [hbody]

/-- Witness for C5 (amended), applying the first part at a concrete call
with an empty response body. -/
theorem c5_witness :
    ((send_signed_request envHappy happyCfg "old.key" "new.key" tmplDemo
        tmplDemo (some "N1") kcUrl "old.key"
        (Json.obj [("k", Json.str "v")])).1 =
      .ok (⟨200, [("Replay-Nonce", "nonce-2")], none⟩,
           Json.str "\x7b\x7d", "nonce-2")) ∧
    (((⟨200, [("Replay-Nonce", "nonce-2")], none⟩ : HttpResponse).body = none →
        Json.str "\x7b\x7d" = Json.str (envHappy.dumps (Json.obj []))) ∧
     (∀ j, (⟨200, [("Replay-Nonce", "nonce-2")], none⟩ : HttpResponse).body =
        some j → Json.str "\x7b\x7d" = j) ∧
     ¬(400 ≤ (⟨200, [("Replay-Nonce", "nonce-2")], none⟩ : HttpResponse).status ∧
       (⟨200, [("Replay-Nonce", "nonce-2")], none⟩ : HttpResponse).status < 600)) :=
  ⟨rfl,
   c5_amended.1 envHappy happyCfg "old.key" "new.key" tmplDemo tmplDemo
     (some "N1") kcUrl "old.key" (Json.obj [("k", Json.str "v")])
     ⟨200, [("Replay-Nonce", "nonce-2")], none⟩
     (Json.str "\x7b\x7d") "nonce-2" rfl⟩

/-- C3 (failing input): a signed POST whose response is HTTP 403 and
carries a fresh `Replay-Nonce` header does not update the nonce — the
transport raises `RuntimeError("Unable to get response from ACME
server.")` instead, because `requests.Response.__bool__` is false for
status 403. -/
theorem c3_nonce_not_updated_on_error_status :
    (∀ j, env403.httpPost naUrl j =
       some ⟨403, [("Replay-Nonce", "nonce-fresh")],
             some (.obj [("type",
               .str "urn:ietf:params:acme:error:unauthorized")])⟩) ∧
    headerGet [("Replay-Nonce", "nonce-fresh")] "Replay-Nonce" =
      some "nonce-fresh" ∧
    (send_signed_request env403 happyCfg "old.key" "new.key" tmplDemo
        tmplDemo none naUrl "old.key"
        (Json.obj [("onlyReturnExisting", Json.bool true)])).1 =
      .error .runtimeNoResponse :=
  ⟨fun _ => rfl, rfl, rfl⟩

/-- C6 (failing input): when the account lookup returns HTTP 403, the run
terminates with `RuntimeError("Unable to get response from ACME
server.")` — the status 403 and the decoded body are never surfaced (the
`ValueError` of line 133 is unreachable for statuses ≥ 400) — and no
key-change request is sent (the network calls stop at the
newAccount POST). -/
theorem c6_lookup_403_diverges :
    (account_rollover env403 "old.key" "new.key" dirUrl).1 =
      .error .runtimeNoResponse ∧
    (account_rollover env403 "old.key" "new.key" dirUrl).2.1 =
      [.get dirUrl, .get nnUrl, .post naUrl] :=
  ⟨by decide, by decide⟩

/-- C2 counterexample: with a directory lacking `keyChange` (but complete
otherwise), the run does *not* fail at directory-resolution time: it
performs the fresh-nonce GET and the account-lookup POST (network calls
beyond the directory fetch), and only then fails — with a `KeyError`, not
a directory error. -/
theorem c2_counterexample :
    (account_rollover envNoKeyChange "old.key" "new.key" dirUrl).1 =
      .error (.keyError "keyChange") ∧
    (account_rollover envNoKeyChange "old.key" "new.key" dirUrl).2.1 =
      [.get dirUrl, .get nnUrl, .post naUrl] :=
  ⟨by decide, by decide⟩

/-- C2 (amended): when the directory object lacks `keyChange` but the
account lookup otherwise succeeds, the run does not stop at directory
resolution — it performs the fresh-nonce GET and the newAccount POST and
only then fails, with `KeyError("keyChange")` raised at the key-change
step (line 140), not with a dedicated directory error. -/
theorem c2_amended (env : Env) (o n dir : String) (cfgd : PyDict)
    (nn na rn rn2 loc : String) (resp : HttpResponse)
    (kpo kpn : List Nat × List Nat)
    (hb : (env.httpGet dir).body = some (.obj cfgd))
    (hkcMissing : cfgd.contains "keyChange" = false)
    (hnn : cfgGet (.obj cfgd) "newNonce" = .ok nn)
    (hna : cfgGet (.obj cfgd) "newAccount" = .ok na)
    (hko : env.keyParams o = some kpo)
    (hkn : env.keyParams n = some kpn)
    (hrn : headerGet (env.httpGet nn).headers "Replay-Nonce" = some rn)
    (hpost : ∀ j, env.httpPost na j = some resp)
    (hst : resp.status = 200)
    (hrn2 : headerGet resp.headers "Replay-Nonce" = some rn2)
    (hloc : headerGet resp.headers "Location" = some loc) :
    (account_rollover env o n dir).1 = .error (.keyError "keyChange") ∧
    NetCall.post na ∈ (account_rollover env o n dir).2.1 := by
  have hgo : get_private_acme_signature env o =
      .ok [("alg", Json.str "RS256"),
           ("jwk", Json.obj [("e", Json.str (b64 kpo.2)), ("kty", Json.str "RSA"),
                             ("n", Json.str (b64 kpo.1))])] := by
    unfold get_private_acme_signature
    rw [hko]
  have hgn : get_private_acme_signature env n =
      .ok [("alg", Json.str "RS256"),
           ("jwk", Json.obj [("e", Json.str (b64 kpn.2)), ("kty", Json.str "RSA"),
                             ("n", Json.str (b64 kpn.1))])] := by
    unfold get_private_acme_signature
    rw [hkn]
  have hfresh : freshNonce env (.obj cfgd) = (.ok rn, [.get nn]) := by
    unfold freshNonce
    rw [hnn]
    dsimp only
    rw [hrn]
  have hkey : ∀ tmpl : PyDict, ∃ jose prot,
      sign_request_body env (.obj cfgd) none na o
        (if isEmptyStr (Json.obj [("onlyReturnExisting", Json.bool true)]) then ""
         else b64s (env.dumps (Json.obj [("onlyReturnExisting", Json.bool true)])))
        tmpl false = (.ok (jose, prot), [.get nn]) := by
    intro tmpl
    unfold sign_request_body
    rw [hna]
    simp only [Except.map, decide_True]
    rw [hfresh]
    exact ⟨_, _, rfl⟩
  have hsig1 : ∃ jose prot,
      sign_request env (.obj cfgd) o n
        [("alg", Json.str "RS256"),
         ("jwk", Json.obj [("e", Json.str (b64 kpo.2)), ("kty", Json.str "RSA"),
                           ("n", Json.str (b64 kpo.1))])]
        [("alg", Json.str "RS256"),
         ("jwk", Json.obj [("e", Json.str (b64 kpn.2)), ("kty", Json.str "RSA"),
                           ("n", Json.str (b64 kpn.1))])]
        none na o (Json.obj [("onlyReturnExisting", Json.bool true)]) false =
        (.ok (jose, prot), [.get nn]) := by
    by_cases hon : o = n
    · unfold sign_request
      rw [if_pos hon]
      exact hkey _
    · unfold sign_request
      rw [if_neg hon, if_pos rfl]
      exact hkey _
  obtain ⟨jose, prot, hsig1⟩ := hsig1
  have hsend1 : ∃ body1 sc1,
      send_signed_request env (.obj cfgd) o n
        [("alg", Json.str "RS256"),
         ("jwk", Json.obj [("e", Json.str (b64 kpo.2)), ("kty", Json.str "RSA"),
                           ("n", Json.str (b64 kpo.1))])]
        [("alg", Json.str "RS256"),
         ("jwk", Json.obj [("e", Json.str (b64 kpn.2)), ("kty", Json.str "RSA"),
                           ("n", Json.str (b64 kpn.1))])]
        none na o (Json.obj [("onlyReturnExisting", Json.bool true)]) =
        (.ok (resp, body1, rn2), [.get nn, .post na], [sc1]) := by
    unfold send_signed_request
    rw [hsig1]
    dsimp only
    rw [hpost jose]
    dsimp only
    rw [if_neg (show ¬(400 ≤ resp.status ∧ resp.status < 600) by
      rw [hst]; decide)]
    rw [hrn2]
    dsimp only
    exact ⟨_, _, rfl⟩
  obtain ⟨body1, sc1, hsend1⟩ := hsend1
  have hkcErr : cfgGet (.obj cfgd) "keyChange" = .error (.keyError "keyChange") := by
    unfold cfgGet
    dsimp only
    rw [PyDict.get_eq_none cfgd "keyChange" hkcMissing]
  have hrun : account_rollover env o n dir =
      (.error (.keyError "keyChange"), [.get dir, .get nn, .post na], [sc1]) := by
    unfold account_rollover
    rw [hb]
    dsimp only
    rw [hgo]
    dsimp only
    rw [hgn]
    dsimp only
    rw [hna]
    dsimp only
    rw [hsend1]
    dsimp only
    rw [if_pos hst, hloc]
    dsimp only
    rw [hkcErr]
  rw [hrun]
  exact ⟨rfl, by simp⟩

/-- Witness for C2 (amended) at the concrete no-keyChange environment. -/
theorem c2_witness :
    (PyDict.contains [("newNonce", Json.str nnUrl), ("newAccount", Json.str naUrl)]
       "keyChange" = false) ∧
    ((account_rollover envNoKeyChange "old.key" "new.key" dirUrl).1 =
       .error (.keyError "keyChange") ∧
     NetCall.post naUrl ∈
       (account_rollover envNoKeyChange "old.key" "new.key" dirUrl).2.1) :=
  ⟨by decide,
   c2_amended envNoKeyChange "old.key" "new.key" dirUrl
     [("newNonce", Json.str nnUrl), ("newAccount", Json.str naUrl)]
     nnUrl naUrl "nonce-0" "nonce-1" "https://ca.example/acct/1"
     ⟨200, [("Replay-Nonce", "nonce-1"), ("Location", "https://ca.example/acct/1")],
      some (.obj [("status", .str "valid")])⟩
     ([9, 9], [1, 0, 1]) ([9, 9], [1, 0, 1])
     rfl (by decide) rfl rfl rfl rfl rfl (fun _ => rfl) rfl rfl rfl⟩
